import Mathlib

/-!
# Verification of the maths-vector-ts 2D vector library

Shallow embedding of the library's source:
* `src/operator-system/types.ts` — the operator-system contract,
* `src/operator-system/base.ts` — the native floating-point backend,
* `src/operator-system/big.ts`  — the arbitrary-precision (big.js) backend,
* `src/operator-system/index.ts` — the name-keyed backend registry,
* `src/vector.ts` — the `Vector` class.

Modelling conventions:
* JavaScript numbers are modelled by `JSNum`: an exact rational together with
  the IEEE special values `Infinity`, `-Infinity` and `NaN`.  The special-value
  propagation rules of JavaScript arithmetic are modelled exactly; rounding of
  finite double arithmetic is not modelled (the claims settled against this
  model only exercise exactly representable finite values).  Signed zero is
  identified with zero.
* big.js values are modelled by exact rationals.  big.js itself is an external
  collaborator of the repository (its sources are not part of it); its
  operations are modelled from the spec's backend contract: exact decimal
  arithmetic, division by zero and square root of a negative value fail with a
  domain error, construction from an unparseable string fails.
* Strings are Lean strings.  `Number(string)` coercion and the big.js string
  parser are modelled for decimal numerals (optional sign, integer and
  fraction digits) and the special names `""`, `"Infinity"`, `"-Infinity"`;
  JavaScript's additional numeric string formats (hexadecimal, exponent
  notation, surrounding whitespace, leading `+`) are not modelled.
* Methods that can throw under the big.js backend return `Except Err`.
  The native backend's operations never fail (proved where needed).
* The mutable static `Vector.SYSTEM` is threaded through every constructing
  operation as an explicit `SYSTEM` parameter.
-/

namespace MathsVector

/- The Batteries rational-number operations are `@[irreducible]`, which
blocks the definitional evaluation of the embedded operations on concrete
inputs; restore the default reducibility for this development. -/
set_option allowUnsafeReducibility true

attribute [local semireducible] Rat.add Rat.mul Rat.sub Rat.inv

/-- A JavaScript number: an exact rational, or one of the IEEE special
values.  Finite-precision rounding is not modelled; signed zero is
identified with `0`. -/
inductive JSNum where
  | fin (q : ℚ)
  | inf
  | ninf
  | nan
deriving DecidableEq

/-- JavaScript unary negation on numbers. -/
def jsNeg : JSNum → JSNum
  | .fin q => .fin (-q)
  | .inf => .ninf
  | .ninf => .inf
  | .nan => .nan

/-- JavaScript `+` on numbers (finite arithmetic exact, IEEE special-value
rules for the rest). -/
def jsPlus : JSNum → JSNum → JSNum
  | .nan, _ => .nan
  | _, .nan => .nan
  | .inf, .ninf => .nan
  | .ninf, .inf => .nan
  | .inf, _ => .inf
  | _, .inf => .inf
  | .ninf, _ => .ninf
  | _, .ninf => .ninf
  | .fin a, .fin b => .fin (a + b)

/-- JavaScript `-` on numbers. -/
def jsMinus : JSNum → JSNum → JSNum
  | .nan, _ => .nan
  | _, .nan => .nan
  | .inf, .inf => .nan
  | .ninf, .ninf => .nan
  | .inf, _ => .inf
  | .ninf, _ => .ninf
  | _, .inf => .ninf
  | _, .ninf => .inf
  | .fin a, .fin b => .fin (a - b)

/-- JavaScript `*` on numbers. -/
def jsMul : JSNum → JSNum → JSNum
  | .nan, _ => .nan
  | _, .nan => .nan
  | .inf, .inf => .inf
  | .inf, .ninf => .ninf
  | .ninf, .inf => .ninf
  | .ninf, .ninf => .inf
  | .inf, .fin b => if b = 0 then .nan else if 0 < b then .inf else .ninf
  | .fin a, .inf => if a = 0 then .nan else if 0 < a then .inf else .ninf
  | .ninf, .fin b => if b = 0 then .nan else if 0 < b then .ninf else .inf
  | .fin a, .ninf => if a = 0 then .nan else if 0 < a then .ninf else .inf
  | .fin a, .fin b => .fin (a * b)

/-- JavaScript `/` on numbers: division by zero yields a signed infinity
(`0/0` yields `NaN`), never an error. -/
def jsDiv : JSNum → JSNum → JSNum
  | .nan, _ => .nan
  | _, .nan => .nan
  | .inf, .inf => .nan
  | .inf, .ninf => .nan
  | .ninf, .inf => .nan
  | .ninf, .ninf => .nan
  | .inf, .fin b => if 0 ≤ b then .inf else .ninf
  | .ninf, .fin b => if 0 ≤ b then .ninf else .inf
  | .fin _, .inf => .fin 0
  | .fin _, .ninf => .fin 0
  | .fin a, .fin b =>
      if b = 0 then (if a = 0 then .nan else if 0 < a then .inf else .ninf)
      else .fin (a / b)

/-- `Math.sqrt`: `NaN` for negative input, exact square root otherwise
(precision of the platform's floating-point square root is not modelled;
no claim settled here evaluates it on an inexact case). -/
def jsSqrt : JSNum → JSNum
  | .nan => .nan
  | .inf => .inf
  | .ninf => .nan
  | .fin q =>
      if q < 0 then .nan
      else .fin ((Nat.sqrt q.num.natAbs : ℚ) / (Nat.sqrt q.den : ℚ))

/-- `Math.abs`. -/
def jsAbs : JSNum → JSNum
  | .nan => .nan
  | .inf => .inf
  | .ninf => .inf
  | .fin q => .fin |q|

/-- JavaScript `===` on numbers: exact, and `NaN` compares unequal to
everything, itself included. -/
def jsEq : JSNum → JSNum → Bool
  | .fin a, .fin b => a = b
  | .inf, .inf => true
  | .ninf, .ninf => true
  | _, _ => false

/-! ## Decimal strings -/

/-- Numeric value of a list of decimal digit characters. -/
def digitsVal (cs : List Char) : ℕ :=
  cs.foldl (fun a c => 10 * a + (c.toNat - 48)) 0

/-- Parse an unsigned decimal numeral (`"12"`, `"12.5"`, `"12."`, `".5"`). -/
def parseUnsigned (cs : List Char) : Option ℚ :=
  let intP := cs.takeWhile Char.isDigit
  let rest := cs.dropWhile Char.isDigit
  match rest with
  | [] => if intP.isEmpty then none else some (digitsVal intP : ℚ)
  | '.' :: frac =>
      if frac.all Char.isDigit && (!intP.isEmpty || !frac.isEmpty) then
        some ((digitsVal intP : ℚ) + (digitsVal frac : ℚ) / 10 ^ frac.length)
      else none
  | _ => none

/-- Parse a signed decimal numeral.  Covers the decimal forms accepted by
both `Number(string)` and the big.js constructor; formats on which the two
differ (hexadecimal, exponent notation, leading `+`) are out of scope. -/
def parseDecimal (s : String) : Option ℚ :=
  match s.toList with
  | '-' :: cs => (parseUnsigned cs).map Neg.neg
  | cs => parseUnsigned cs

/-- Render a natural number with an implied decimal point `k` digits from
the right (`renderPositional 125 1 = "12.5"`). -/
def renderPositional (n : ℕ) (k : ℕ) : String :=
  if k = 0 then toString n
  else
    let s := toString n
    let s := if s.length ≤ k then String.mk (List.replicate (k + 1 - s.length) '0') ++ s else s
    String.mk (s.toList.take (s.length - k)) ++ "." ++ String.mk (s.toList.drop (s.length - k))

/-- Canonical decimal rendering of a rational, matching both JavaScript's
`Number#toString` and big.js's `toString` on values with a finite decimal
expansion of moderate size (exponent notation for extreme magnitudes is not
modelled; rationals without a finite decimal expansion never reach a
rendering in the claims settled here and get a fallback form). -/
def renderDecimal (q : ℚ) : String :=
  if q = 0 then "0"
  else
    let sign := if q < 0 then "-" else ""
    let a := q.num.natAbs
    let b := q.den
    match (List.range (b + 1)).find? (fun k => 10 ^ k % b == 0) with
    | some k => sign ++ renderPositional (a * (10 ^ k / b)) k
    | none => sign ++ toString a ++ "/" ++ toString b

/-- `Number(string)` coercion: the empty string is `0`, the infinity names
are the infinities, decimal numerals are exact, anything else is `NaN`. -/
def jsStringToNum (s : String) : JSNum :=
  if s = "" then .fin 0
  else if s = "Infinity" then .inf
  else if s = "-Infinity" then .ninf
  else
    match parseDecimal s with
    | some q => .fin q
    | none => .nan

/-- `Number#toString` (and the rendering of the special values). -/
def jsNumToString : JSNum → String
  | .fin q => renderDecimal q
  | .inf => "Infinity"
  | .ninf => "-Infinity"
  | .nan => "NaN"

/-! ## Operands and the operator-system contract -/

/-- A stored operand: a native number, a string, or a big.js value
(`Operand<T> = T | string | number` from `operator-system/types.ts`,
with both concrete choices of `T` represented). -/
inductive Stored where
  | num (n : JSNum)
  | str (s : String)
  | big (q : ℚ)
deriving DecidableEq

/-- JavaScript truthiness of a stored operand: the numbers `0` and `NaN`
and the empty string are falsy; big.js values are objects, always truthy. -/
def Stored.truthy : Stored → Bool
  | .num (.fin q) => q ≠ 0
  | .num .nan => false
  | .num _ => true
  | .str s => s ≠ ""
  | .big _ => true

/-- `x.toString()` on a stored operand. -/
def Stored.toString : Stored → String
  | .num n => jsNumToString n
  | .str s => s
  | .big q => renderDecimal q

/-- `Number(x)` coercion of a stored operand (a big.js value is coerced
through its decimal rendering, which is value-preserving). -/
def toNumber : Stored → JSNum
  | .num n => n
  | .str s => jsStringToNum s
  | .big q => .fin q

/-- Errors of the arbitrary-precision backend (big.js domain errors). -/
inductive Err where
  | invalidNumber
  | divByZero
  | sqrtNeg
deriving DecidableEq

/-- Explicit bind for `Except Err`, used to keep the embedded operation
chains easy to reason about by cases. -/
def bindE {α β : Type} (e : Except Err α) (f : α → Except Err β) : Except Err β :=
  match e with
  | .error err => .error err
  | .ok a => f a

@[simp] theorem bindE_ok {α β : Type} (a : α) (f : α → Except Err β) :
    bindE (.ok a) f = f a := rfl

@[simp] theorem bindE_error {α β : Type} (e : Err) (f : α → Except Err β) :
    bindE (.error e) f = .error e := rfl

@[simp] theorem mapE_ok {α β : Type} (f : α → β) (a : α) :
    Except.map f (Except.ok a : Except Err α) = .ok (f a) := rfl

@[simp] theorem mapE_error {α β : Type} (f : α → β) (e : Err) :
    Except.map f (Except.error e : Except Err α) = .error e := rfl

/-- Modelled from the spec: coercion of an operand into a big.js value
(`new Big(x)` of the external big.js library).  Accepts a finite native
number, a decimal numeral string, or an existing big.js value; anything
else fails with a domain error. -/
def toBig : Stored → Except Err ℚ
  | .big q => .ok q
  | .num (.fin q) => .ok q
  | .num _ => .error .invalidNumber
  | .str s =>
      match parseDecimal s with
      | some q => .ok q
      | none => .error .invalidNumber

/-- Modelled from the spec: exact square root of a nonnegative rational
when it is a perfect square of a rational, a 20-decimal-place approximation
otherwise (the external library's finite working precision is not modelled
further; no claim settled here evaluates the inexact branch). -/
def ratSqrt (q : ℚ) : ℚ :=
  if (Nat.sqrt q.num.natAbs) ^ 2 = q.num.natAbs ∧ (Nat.sqrt q.den) ^ 2 = q.den then
    (Nat.sqrt q.num.natAbs : ℚ) / (Nat.sqrt q.den : ℚ)
  else
    (Nat.sqrt ((q * 10 ^ 40).floor.natAbs) : ℚ) / 10 ^ 20

/-- The operator-system contract of `operator-system/types.ts`: a named
record of the eight primitive operations.  Operations run in `Except Err`
because the arbitrary-precision backend's primitives can fail. -/
structure OperatorSystem where
  name : String
  create : Stored → Except Err Stored
  sqrt : Stored → Except Err Stored
  abs : Stored → Except Err Stored
  plus : Stored → Stored → Except Err Stored
  minus : Stored → Stored → Except Err Stored
  divide : Stored → Stored → Except Err Stored
  multiply : Stored → Stored → Except Err Stored
  equal : Stored → Stored → Except Err Bool

/-- The native floating-point backend (`operator-system/base.ts`): every
operation coerces its operands with `Number(...)` and delegates to native
arithmetic.  It never fails. -/
def BaseOperatorSystem : OperatorSystem where
  name := "BaseOperatorSystem"
  create := fun x => .ok (.num (toNumber x))
  sqrt := fun x => .ok (.num (jsSqrt (toNumber x)))
  abs := fun x => .ok (.num (jsAbs (toNumber x)))
  plus := fun x y => .ok (.num (jsPlus (toNumber x) (toNumber y)))
  minus := fun x y => .ok (.num (jsMinus (toNumber x) (toNumber y)))
  divide := fun x y => .ok (.num (jsDiv (toNumber x) (toNumber y)))
  multiply := fun x y => .ok (.num (jsMul (toNumber x) (toNumber y)))
  equal := fun x y => .ok (jsEq (toNumber x) (toNumber y))

/-- The arbitrary-precision backend (`operator-system/big.ts`): every
operation builds big.js values from its operands (first operand first, as
in `new Big(x).plus(y)`), and division by zero and square root of a
negative value fail with a domain error. -/
def BigOperatorSystem : OperatorSystem where
  name := "BigOperatorSystem"
  create := fun x => bindE (toBig x) fun a => .ok (.big a)
  sqrt := fun x => bindE (toBig x) fun a =>
    if a < 0 then .error .sqrtNeg else .ok (.big (ratSqrt a))
  abs := fun x => bindE (toBig x) fun a => .ok (.big |a|)
  plus := fun x y => bindE (toBig x) fun a => bindE (toBig y) fun b => .ok (.big (a + b))
  minus := fun x y => bindE (toBig x) fun a => bindE (toBig y) fun b => .ok (.big (a - b))
  divide := fun x y => bindE (toBig x) fun a => bindE (toBig y) fun b =>
    if b = 0 then .error .divByZero else .ok (.big (a / b))
  multiply := fun x y => bindE (toBig x) fun a => bindE (toBig y) fun b => .ok (.big (a * b))
  equal := fun x y => bindE (toBig x) fun a => bindE (toBig y) fun b => .ok (decide (a = b))

/-- The name-keyed backend registry (`operator-system/index.ts` default
export: `{ base: BaseOperatorSystem, big: BigOperatorSystem }`), as the
lookup `OperatorSystem[name]`. -/
def registryLookup (s : String) : Option OperatorSystem :=
  if s = "base" then some BaseOperatorSystem
  else if s = "big" then some BigOperatorSystem
  else none

/-! ## The Vector class (`src/vector.ts`)

The mutable static `Vector.SYSTEM` is passed to every constructing
operation as the explicit parameter `SYSTEM`. -/

/-- A `Vector` instance: the two stored coordinates and the operator
system the instance holds a reference to. -/
structure Vector where
  _x : Stored
  _y : Stored
  operatorSystem : OperatorSystem

/-- The initial value of the static `Vector.SYSTEM` field: the
arbitrary-precision backend. -/
def defaultSYSTEM : OperatorSystem := BigOperatorSystem

/-- `arg || 0`: a missing or falsy argument is replaced by the number
literal `0`. -/
def orZero (o : Option Stored) : Stored :=
  match o with
  | none => .num (.fin 0)
  | some s => if s.truthy then s else .num (.fin 0)

/-- The constructor `new Vector(x, y)`: stores `x || 0` and `y || 0` raw
(no normalization through the operator system) and takes the current
static `Vector.SYSTEM` as its operator system. -/
def Vector.new (SYSTEM : OperatorSystem) (x y : Option Stored) : Vector :=
  { _x := orZero x, _y := orZero y, operatorSystem := SYSTEM }

/-- The `x` getter: `this._x.toString()`. -/
def Vector.x (v : Vector) : String := v._x.toString

/-- The `y` getter: `this._y.toString()`. -/
def Vector.y (v : Vector) : String := v._y.toString

/-- The `x` setter: stores `this.operatorSystem.create(v)`. -/
def Vector.setX (v : Vector) (val : Stored) : Except Err Vector :=
  bindE (v.operatorSystem.create val) fun t => .ok { v with _x := t }

/-- The `y` setter: stores `this.operatorSystem.create(v)`. -/
def Vector.setY (v : Vector) (val : Stored) : Except Err Vector :=
  bindE (v.operatorSystem.create val) fun t => .ok { v with _y := t }

/-- The argument accepted by the configuration call: a system name or a
system instance (`config({ system })`, defaulting to the
arbitrary-precision system when the property is missing). -/
inductive ConfigSystem where
  | name (s : String)
  | inst (o : OperatorSystem)

/-- `config`: a string argument is looked up in the registry, falling back
to the static `Vector.SYSTEM` on a miss; an instance argument is installed
directly. -/
def Vector.config (SYSTEM : OperatorSystem) (v : Vector) (arg : Option ConfigSystem) : Vector :=
  match arg.getD (.inst BigOperatorSystem) with
  | .name s => { v with operatorSystem := (registryLookup s).getD SYSTEM }
  | .inst o => { v with operatorSystem := o }

/-- `Vector.fromArray(arr)`: `new Vector(arr[0] || 0, arr[1] || 0)`. -/
def Vector.fromArray (SYSTEM : OperatorSystem) (arr : List Stored) : Vector :=
  Vector.new SYSTEM (some (orZero (arr.get? 0))) (some (orZero (arr.get? 1)))

/-- `Vector.fromObject(obj)`: `new Vector(obj.x || 0, obj.y || 0)` (a
missing property is `none`). -/
def Vector.fromObject (SYSTEM : OperatorSystem) (ox oy : Option Stored) : Vector :=
  Vector.new SYSTEM (some (orZero ox)) (some (orZero oy))

/-- The argument of the binary manipulation methods: another vector or a
scalar operand (`VectorOperand<T> = Vector<T> | Operand<T>`). -/
inductive VOperand where
  | vec (w : Vector)
  | op (s : Stored)

/-- `isVector(vec) ? vec.x : vec`. -/
def VOperand.xOf : VOperand → Stored
  | .vec w => .str w.x
  | .op s => s

/-- `isVector(vec) ? vec.y : vec`. -/
def VOperand.yOf : VOperand → Stored
  | .vec w => .str w.y
  | .op s => s

/-- `addX`: `new Vector(plus(this.x, …), this.y)`. -/
def Vector.addX (SYSTEM : OperatorSystem) (v : Vector) (vec : VOperand) : Except Err Vector :=
  bindE (v.operatorSystem.plus (.str v.x) vec.xOf) fun targetX =>
    .ok (Vector.new SYSTEM (some targetX) (some (.str v.y)))

/-- `addY`: `new Vector(this.x, plus(this.y, …))`. -/
def Vector.addY (SYSTEM : OperatorSystem) (v : Vector) (vec : VOperand) : Except Err Vector :=
  bindE (v.operatorSystem.plus (.str v.y) vec.yOf) fun targetY =>
    .ok (Vector.new SYSTEM (some (.str v.x)) (some targetY))

/-- `add`: `this.addX(vec).addY(vec)`. -/
def Vector.add (SYSTEM : OperatorSystem) (v : Vector) (vec : VOperand) : Except Err Vector :=
  bindE (v.addX SYSTEM vec) fun w => w.addY SYSTEM vec

/-- `subtractX`. -/
def Vector.subtractX (SYSTEM : OperatorSystem) (v : Vector) (vec : VOperand) : Except Err Vector :=
  bindE (v.operatorSystem.minus (.str v.x) vec.xOf) fun targetX =>
    .ok (Vector.new SYSTEM (some targetX) (some (.str v.y)))

/-- `subtractY`. -/
def Vector.subtractY (SYSTEM : OperatorSystem) (v : Vector) (vec : VOperand) : Except Err Vector :=
  bindE (v.operatorSystem.minus (.str v.y) vec.yOf) fun targetY =>
    .ok (Vector.new SYSTEM (some (.str v.x)) (some targetY))

/-- `subtract`: `this.subtractX(vec).subtractY(vec)`. -/
def Vector.subtract (SYSTEM : OperatorSystem) (v : Vector) (vec : VOperand) : Except Err Vector :=
  bindE (v.subtractX SYSTEM vec) fun w => w.subtractY SYSTEM vec

/-- `divideX`. -/
def Vector.divideX (SYSTEM : OperatorSystem) (v : Vector) (vec : VOperand) : Except Err Vector :=
  bindE (v.operatorSystem.divide (.str v.x) vec.xOf) fun targetX =>
    .ok (Vector.new SYSTEM (some targetX) (some (.str v.y)))

/-- `divideY`. -/
def Vector.divideY (SYSTEM : OperatorSystem) (v : Vector) (vec : VOperand) : Except Err Vector :=
  bindE (v.operatorSystem.divide (.str v.y) vec.yOf) fun targetY =>
    .ok (Vector.new SYSTEM (some (.str v.x)) (some targetY))

/-- `divide`: `this.divideX(vec).divideY(vec)`. -/
def Vector.divide (SYSTEM : OperatorSystem) (v : Vector) (vec : VOperand) : Except Err Vector :=
  bindE (v.divideX SYSTEM vec) fun w => w.divideY SYSTEM vec

/-- `multiplyX`. -/
def Vector.multiplyX (SYSTEM : OperatorSystem) (v : Vector) (vec : VOperand) : Except Err Vector :=
  bindE (v.operatorSystem.multiply (.str v.x) vec.xOf) fun targetX =>
    .ok (Vector.new SYSTEM (some targetX) (some (.str v.y)))

/-- `multiplyY`. -/
def Vector.multiplyY (SYSTEM : OperatorSystem) (v : Vector) (vec : VOperand) : Except Err Vector :=
  bindE (v.operatorSystem.multiply (.str v.y) vec.yOf) fun targetY =>
    .ok (Vector.new SYSTEM (some (.str v.x)) (some targetY))

/-- `multiply`: `this.multiplyX(vec).multiplyY(vec)`. -/
def Vector.multiply (SYSTEM : OperatorSystem) (v : Vector) (vec : VOperand) : Except Err Vector :=
  bindE (v.multiplyX SYSTEM vec) fun w => w.multiplyY SYSTEM vec

/-- `invertX`: `this.multiplyX(-1)`. -/
def Vector.invertX (SYSTEM : OperatorSystem) (v : Vector) : Except Err Vector :=
  v.multiplyX SYSTEM (.op (.num (.fin (-1))))

/-- `invertY`: `this.multiplyY(-1)`. -/
def Vector.invertY (SYSTEM : OperatorSystem) (v : Vector) : Except Err Vector :=
  v.multiplyY SYSTEM (.op (.num (.fin (-1))))

/-- `invert`: `this.multiply(-1)`. -/
def Vector.invert (SYSTEM : OperatorSystem) (v : Vector) : Except Err Vector :=
  v.multiply SYSTEM (.op (.num (.fin (-1))))

/-- The `lengthSq` getter:
`plus(multiply(this.x, this.x), multiply(this.y, this.y)).toString()`. -/
def Vector.lengthSq (v : Vector) : Except Err String :=
  bindE (v.operatorSystem.multiply (.str v.x) (.str v.x)) fun m1 =>
    bindE (v.operatorSystem.multiply (.str v.y) (.str v.y)) fun m2 =>
      bindE (v.operatorSystem.plus m1 m2) fun s => .ok s.toString

/-- The `length` getter: `sqrt(this.lengthSq).toString()`. -/
def Vector.length (v : Vector) : Except Err String :=
  bindE v.lengthSq fun l =>
    bindE (v.operatorSystem.sqrt (.str l)) fun r => .ok r.toString

/-- `normalize`: `this.divide(this.length)`. -/
def Vector.normalize (SYSTEM : OperatorSystem) (v : Vector) : Except Err Vector :=
  bindE v.length fun l => v.divide SYSTEM (.op (.str l))

/-- `rotate(angle)`: trigonometry is native (`Math.cos` / `Math.sin`,
passed here as the explicit ambient functions `mcos` / `msin`), the
arithmetic delegates to the operator system, and the result is a new
vector `new Vector(nx, ny)`. -/
def Vector.rotate (SYSTEM : OperatorSystem) (mcos msin : JSNum → JSNum) (angle : JSNum)
    (v : Vector) : Except Err Vector :=
  bindE (v.operatorSystem.multiply (.str v.x) (.num (mcos angle))) fun a =>
    bindE (v.operatorSystem.multiply (.str v.y) (.num (msin angle))) fun b =>
      bindE (v.operatorSystem.minus a b) fun nx =>
        bindE (v.operatorSystem.multiply (.str v.x) (.num (msin angle))) fun c =>
          bindE (v.operatorSystem.multiply (.str v.y) (.num (mcos angle))) fun d =>
            bindE (v.operatorSystem.plus c d) fun ny =>
              .ok (Vector.new SYSTEM (some nx) (some ny))

/-- Modelled from the spec: `degree2radian` of the missing `util` module
converts degrees to radians by a division-based formula through the
supplied `divide` (degrees divided by the degrees-per-radian constant);
the exact constant is irrelevant to the claims settled here. -/
def degree2radian (divide : Stored → Stored → Except Err Stored) (degree : JSNum) :
    Except Err Stored :=
  divide (.num degree) (.num (.fin (180 * 1000000000000000 / 3141592653589793)))

/-- `rotateDegree(degree)`: converts through `degree2radian` with the
operator system's `divide`, then delegates to `rotate`. -/
def Vector.rotateDegree (SYSTEM : OperatorSystem) (mcos msin : JSNum → JSNum) (degree : JSNum)
    (v : Vector) : Except Err Vector :=
  bindE (degree2radian v.operatorSystem.divide degree) fun a =>
    v.rotate SYSTEM mcos msin (toNumber a)

/-- `dot(vec2)`:
`plus(multiply(this.x, vec2.x), multiply(this.y, vec2.y)).toString()`. -/
def Vector.dot (v vec2 : Vector) : Except Err String :=
  bindE (v.operatorSystem.multiply (.str v.x) (.str vec2.x)) fun m1 =>
    bindE (v.operatorSystem.multiply (.str v.y) (.str vec2.y)) fun m2 =>
      bindE (v.operatorSystem.plus m1 m2) fun s => .ok s.toString

/-- The operand of `cross(vec2)` before its final `.toString()`:
`minus(multiply(this.x, vec2.y), multiply(this.y, vec2.x))`. -/
def Vector.crossRaw (v vec2 : Vector) : Except Err Stored :=
  bindE (v.operatorSystem.multiply (.str v.x) (.str vec2.y)) fun m1 =>
    bindE (v.operatorSystem.multiply (.str v.y) (.str vec2.x)) fun m2 =>
      v.operatorSystem.minus m1 m2

/-- `cross(vec2)`: the rendering of `crossRaw`. -/
def Vector.cross (v vec2 : Vector) : Except Err String :=
  Except.map Stored.toString (v.crossRaw vec2)

/-- `projectOnto(vec2)`: the coefficient `divide(this.dot(vec2),
vec2.lengthSq)` applied to both coordinates of `vec2`. -/
def Vector.projectOnto (SYSTEM : OperatorSystem) (v vec2 : Vector) : Except Err Vector :=
  bindE (v.dot vec2) fun d =>
    bindE vec2.lengthSq fun l2 =>
      bindE (v.operatorSystem.divide (.str d) (.str l2)) fun coeff =>
        bindE (v.operatorSystem.multiply coeff (.str vec2.x)) fun nx =>
          bindE (v.operatorSystem.multiply coeff (.str vec2.y)) fun ny =>
            .ok (Vector.new SYSTEM (some nx) (some ny))

/-- `cosAngleBetween(vec2)`:
`this.divide(this.length).divide(vec2.length).dot(vec2)`. -/
def Vector.cosAngleBetween (SYSTEM : OperatorSystem) (v vec2 : Vector) : Except Err String :=
  bindE v.length fun l1 =>
    bindE (v.divide SYSTEM (.op (.str l1))) fun w1 =>
      bindE vec2.length fun l2 =>
        bindE (w1.divide SYSTEM (.op (.str l2))) fun w2 =>
          w2.dot vec2

/-- `isEqualTo(vec2)`: `equal(this.x, vec2.x) && equal(this.y, vec2.y)`
(short-circuiting). -/
def Vector.isEqualTo (v vec2 : Vector) : Except Err Bool :=
  bindE (v.operatorSystem.equal (.str v.x) (.str vec2.x)) fun b1 =>
    if b1 then v.operatorSystem.equal (.str v.y) (.str vec2.y) else .ok false

/-- `toArray()`: `[this.x, this.y]` (the getter strings). -/
def Vector.toArray (v : Vector) : List Stored :=
  [.str v.x, .str v.y]

/-- `toObject()`: `{ x: this.x, y: this.y }` (the getter strings). -/
def Vector.toObject (v : Vector) : Stored × Stored :=
  (.str v.x, .str v.y)

/-! ## Contract-level model for the length-normalization properties

The numeric backends themselves (platform floating point, big.js) are
external collaborators of the repository.  For the properties that depend
on the value of `sqrt`, the spec's operator-system contract (§4.1: exact
field-like arithmetic, `sqrt` the exact nonnegative root of its input)
is modelled directly over exact rationals, with the square-root outputs
universally quantified through their defining property. -/

/-- A vector at the contract level: two exact coordinates. -/
structure QVec where
  x : ℚ
  y : ℚ
deriving DecidableEq

/-- `lengthSq`: `plus(multiply(x, x), multiply(y, y))`. -/
def QVec.lengthSq (v : QVec) : ℚ := v.x * v.x + v.y * v.y

/-- `divide(scalar)`: `divideX` then `divideY`, i.e. both coordinates
divided by the scalar. -/
def QVec.divideScalar (v : QVec) (s : ℚ) : QVec := ⟨v.x / s, v.y / s⟩

/-- `dot`: `plus(multiply(x, v.x), multiply(y, v.y))`. -/
def QVec.dot (v w : QVec) : ℚ := v.x * w.x + v.y * w.y

/-- `cosAngleBetween` exactly as the code sequences it:
`this.divide(this.length).divide(vec2.length).dot(vec2)`, with the two
length values (`sqrt` outputs) taken as parameters. -/
def QVec.cosAngleBetween (v w : QVec) (lv lw : ℚ) : ℚ :=
  ((v.divideScalar lv).divideScalar lw).dot w

/-- The spec's phrasing of the same quantity: the dot product of the two
operands after each has been normalized by its own length. -/
def cosAngleBetweenSpec (v w : QVec) (lv lw : ℚ) : ℚ :=
  (v.divideScalar lv).dot (w.divideScalar lw)

/-- Negation of an operation-result operand (`-x` on the value level).
Operation results are always backend values (`num` or `big`); the string
case is an unreachable placeholder. -/
def Stored.negVal : Stored → Stored
  | .num n => .num (jsNeg n)
  | .big q => .big (-q)
  | .str s => .str s

/-- The operator system carried by the result of a constructing operation
is the ambient static `Vector.SYSTEM` (on success; errors pass through
unchanged). -/
def KeepsSystem (SYSTEM : OperatorSystem) (e : Except Err Vector) : Prop :=
  e.map Vector.operatorSystem = e.map fun _ => SYSTEM

/-- The value-parsing part of `toBig`, split out so that case analysis on
a parse failure determines the error value. -/
def toBigQ : Stored → Option ℚ
  | .big q => some q
  | .num (.fin q) => some q
  | .num _ => none
  | .str t => parseDecimal t

/-! ## Claims -/

/-- **C2.** With the native floating-point backend,
`Vector(1,1).divide(Vector(0,0)).x` is the non-finite rendering
`"Infinity"` and no error is raised; with the arbitrary-precision backend
the same call fails with the division-by-zero domain error, which
propagates to the caller. -/
theorem c2_divide_by_zero_vector :
    ((Vector.new BaseOperatorSystem (some (.num (.fin 1))) (some (.num (.fin 1)))).divide
        BaseOperatorSystem
        (.vec (Vector.new BaseOperatorSystem (some (.num (.fin 0)))
          (some (.num (.fin 0)))))).map Vector.x = .ok "Infinity"
    ∧ (Vector.new BigOperatorSystem (some (.num (.fin 1))) (some (.num (.fin 1)))).divide
        BigOperatorSystem
        (.vec (Vector.new BigOperatorSystem (some (.num (.fin 0)))
          (some (.num (.fin 0))))) = .error .divByZero :=
  ⟨rfl, rfl⟩

/-- **C10.** The constructor and the `fromArray` / `fromObject` factories
replace every falsy coordinate input — the number `0`, `NaN`, the empty
string — and every missing coordinate with the number literal `0`; in
particular `Vector.fromObject({x: NaN, y: ""})` renders both coordinates
as `"0"` under every backend. -/
theorem c10_falsy_inputs_zeroed : ∀ SYSTEM : OperatorSystem,
    (Vector.fromObject SYSTEM (some (.num .nan)) (some (.str ""))).x = "0"
    ∧ (Vector.fromObject SYSTEM (some (.num .nan)) (some (.str ""))).y = "0"
    ∧ (Vector.new SYSTEM (some (.num (.fin 0))) (some (.num .nan)))._x = .num (.fin 0)
    ∧ (Vector.new SYSTEM (some (.num (.fin 0))) (some (.num .nan)))._y = .num (.fin 0)
    ∧ (Vector.new SYSTEM (some (.str "")) none)._x = .num (.fin 0)
    ∧ (Vector.new SYSTEM none none)._x = .num (.fin 0)
    ∧ (Vector.fromArray SYSTEM [.str "", .num .nan])._x = .num (.fin 0)
    ∧ (Vector.fromArray SYSTEM [.str "", .num .nan])._y = .num (.fin 0)
    ∧ (Vector.fromArray SYSTEM [])._x = .num (.fin 0) :=
  fun _ => ⟨rfl, rfl, rfl, rfl, rfl, rfl, rfl, rfl, rfl⟩

/-- **C4, counterexample.** The `x` getter does not return the operator
system's normalized rendering: a vector constructed from the raw string
`"1.50"` renders its `x` as `"1.50"`, while the arbitrary-precision
backend's rendering of that operand after `create`-normalization is
`"1.5"`. -/
theorem c4_counterexample :
    (Vector.new BigOperatorSystem (some (.str "1.50")) (some (.num (.fin 2)))).x = "1.50"
    ∧ (BigOperatorSystem.create (.str "1.50")).map Stored.toString = .ok "1.5"
    ∧ ("1.50" : String) ≠ "1.5" :=
  ⟨rfl, rfl, by decide⟩

/-- **C4, amended.** The `x`/`y` getters return the stored operand's own
textual rendering — which is the backend's rendering only when the stored
operand is already a backend value; raw constructor inputs are not
normalized.  The setters do re-normalize the assigned value through the
operator system's `create` before storing it. -/
theorem c4_getters_raw_setters_create :
    (∀ v : Vector, v.x = v._x.toString ∧ v.y = v._y.toString)
    ∧ (∀ (v : Vector) (val : Stored),
        (v.setX val).map Vector._x = v.operatorSystem.create val
        ∧ (v.setX val).map Vector._y = Except.map (fun _ => v._y) (v.operatorSystem.create val)
        ∧ (v.setY val).map Vector._y = v.operatorSystem.create val
        ∧ (v.setY val).map Vector._x = Except.map (fun _ => v._x) (v.operatorSystem.create val))
    ∧ (∀ (q : ℚ) (b : Stored) (S : OperatorSystem),
        (Vector.mk (.big q) b S).x = renderDecimal q
        ∧ (Vector.mk b (.big q) S).y = renderDecimal q) := by
  refine ⟨fun v => ⟨rfl, rfl⟩, fun v val => ?_, fun q b S => ⟨rfl, rfl⟩⟩
  cases h : v.operatorSystem.create val <;>
    simp [Vector.setX, Vector.setY, h]

/-- **C9.** Each combined binary manipulation method is the sequential
composition of its X-only and Y-only counterparts, every method returning
a new vector (the embedding is pure: no method writes to the receiver's or
the argument's fields, which are read only through the getters); the
spec's concrete scenarios for `add` and `subtract` evaluate accordingly
under the default arbitrary-precision backend. -/
theorem c9_combined_methods_compose :
    (∀ (SYSTEM : OperatorSystem) (v : Vector) (arg : VOperand),
      v.add SYSTEM arg = bindE (v.addX SYSTEM arg) (fun w => w.addY SYSTEM arg)
      ∧ v.subtract SYSTEM arg = bindE (v.subtractX SYSTEM arg) (fun w => w.subtractY SYSTEM arg)
      ∧ v.divide SYSTEM arg = bindE (v.divideX SYSTEM arg) (fun w => w.divideY SYSTEM arg)
      ∧ v.multiply SYSTEM arg = bindE (v.multiplyX SYSTEM arg) (fun w => w.multiplyY SYSTEM arg))
    ∧ ((Vector.new BigOperatorSystem (some (.num (.fin 100))) (some (.num (.fin 50)))).add
        BigOperatorSystem
        (.vec (Vector.new BigOperatorSystem (some (.num (.fin 20)))
          (some (.num (.fin 30)))))).map Vector.x = .ok "120"
    ∧ ((Vector.new BigOperatorSystem (some (.num (.fin 100))) (some (.num (.fin 50)))).add
        BigOperatorSystem
        (.vec (Vector.new BigOperatorSystem (some (.num (.fin 20)))
          (some (.num (.fin 30)))))).map Vector.y = .ok "80"
    ∧ ((Vector.new BigOperatorSystem (some (.num (.fin 100))) (some (.num (.fin 50)))).subtract
        BigOperatorSystem
        (.vec (Vector.new BigOperatorSystem (some (.num (.fin 20)))
          (some (.num (.fin 30)))))).map Vector.x = .ok "80"
    ∧ ((Vector.new BigOperatorSystem (some (.num (.fin 100))) (some (.num (.fin 50)))).subtract
        BigOperatorSystem
        (.vec (Vector.new BigOperatorSystem (some (.num (.fin 20)))
          (some (.num (.fin 30)))))).map Vector.y = .ok "20" :=
  ⟨fun _ _ _ => ⟨rfl, rfl, rfl, rfl⟩, rfl, rfl, rfl, rfl⟩

theorem keeps_bindE {α : Type} (SYSTEM : OperatorSystem) (e : Except Err α)
    (f : α → Except Err Vector) (h : ∀ a, KeepsSystem SYSTEM (f a)) :
    KeepsSystem SYSTEM (bindE e f) := by
  cases e
  · rfl
  · exact h _

theorem addX_keeps (SYSTEM : OperatorSystem) (v : Vector) (arg : VOperand) :
    KeepsSystem SYSTEM (v.addX SYSTEM arg) :=
  keeps_bindE SYSTEM _ _ fun _ => rfl

theorem addY_keeps (SYSTEM : OperatorSystem) (v : Vector) (arg : VOperand) :
    KeepsSystem SYSTEM (v.addY SYSTEM arg) :=
  keeps_bindE SYSTEM _ _ fun _ => rfl

theorem add_keeps (SYSTEM : OperatorSystem) (v : Vector) (arg : VOperand) :
    KeepsSystem SYSTEM (v.add SYSTEM arg) :=
  keeps_bindE SYSTEM _ _ fun w => addY_keeps SYSTEM w arg

theorem subtractX_keeps (SYSTEM : OperatorSystem) (v : Vector) (arg : VOperand) :
    KeepsSystem SYSTEM (v.subtractX SYSTEM arg) :=
  keeps_bindE SYSTEM _ _ fun _ => rfl

theorem subtractY_keeps (SYSTEM : OperatorSystem) (v : Vector) (arg : VOperand) :
    KeepsSystem SYSTEM (v.subtractY SYSTEM arg) :=
  keeps_bindE SYSTEM _ _ fun _ => rfl

theorem subtract_keeps (SYSTEM : OperatorSystem) (v : Vector) (arg : VOperand) :
    KeepsSystem SYSTEM (v.subtract SYSTEM arg) :=
  keeps_bindE SYSTEM _ _ fun w => subtractY_keeps SYSTEM w arg

theorem divideX_keeps (SYSTEM : OperatorSystem) (v : Vector) (arg : VOperand) :
    KeepsSystem SYSTEM (v.divideX SYSTEM arg) :=
  keeps_bindE SYSTEM _ _ fun _ => rfl

theorem divideY_keeps (SYSTEM : OperatorSystem) (v : Vector) (arg : VOperand) :
    KeepsSystem SYSTEM (v.divideY SYSTEM arg) :=
  keeps_bindE SYSTEM _ _ fun _ => rfl

theorem divide_keeps (SYSTEM : OperatorSystem) (v : Vector) (arg : VOperand) :
    KeepsSystem SYSTEM (v.divide SYSTEM arg) :=
  keeps_bindE SYSTEM _ _ fun w => divideY_keeps SYSTEM w arg

theorem multiplyX_keeps (SYSTEM : OperatorSystem) (v : Vector) (arg : VOperand) :
    KeepsSystem SYSTEM (v.multiplyX SYSTEM arg) :=
  keeps_bindE SYSTEM _ _ fun _ => rfl

theorem multiplyY_keeps (SYSTEM : OperatorSystem) (v : Vector) (arg : VOperand) :
    KeepsSystem SYSTEM (v.multiplyY SYSTEM arg) :=
  keeps_bindE SYSTEM _ _ fun _ => rfl

theorem multiply_keeps (SYSTEM : OperatorSystem) (v : Vector) (arg : VOperand) :
    KeepsSystem SYSTEM (v.multiply SYSTEM arg) :=
  keeps_bindE SYSTEM _ _ fun w => multiplyY_keeps SYSTEM w arg

theorem normalize_keeps (SYSTEM : OperatorSystem) (v : Vector) :
    KeepsSystem SYSTEM (v.normalize SYSTEM) :=
  keeps_bindE SYSTEM _ _ fun l => divide_keeps SYSTEM v (.op (.str l))

theorem rotate_keeps (SYSTEM : OperatorSystem) (mcos msin : JSNum → JSNum)
    (angle : JSNum) (v : Vector) :
    KeepsSystem SYSTEM (v.rotate SYSTEM mcos msin angle) :=
  keeps_bindE SYSTEM _ _ fun _ =>
    keeps_bindE SYSTEM _ _ fun _ =>
      keeps_bindE SYSTEM _ _ fun _ =>
        keeps_bindE SYSTEM _ _ fun _ =>
          keeps_bindE SYSTEM _ _ fun _ =>
            keeps_bindE SYSTEM _ _ fun _ => rfl

theorem rotateDegree_keeps (SYSTEM : OperatorSystem) (mcos msin : JSNum → JSNum)
    (degree : JSNum) (v : Vector) :
    KeepsSystem SYSTEM (v.rotateDegree SYSTEM mcos msin degree) :=
  keeps_bindE SYSTEM _ _ fun a => rotate_keeps SYSTEM mcos msin (toNumber a) v

theorem projectOnto_keeps (SYSTEM : OperatorSystem) (v v2 : Vector) :
    KeepsSystem SYSTEM (v.projectOnto SYSTEM v2) :=
  keeps_bindE SYSTEM _ _ fun _ =>
    keeps_bindE SYSTEM _ _ fun _ =>
      keeps_bindE SYSTEM _ _ fun _ =>
        keeps_bindE SYSTEM _ _ fun _ =>
          keeps_bindE SYSTEM _ _ fun _ => rfl

/-- **C1, counterexample.** A receiver whose operator system was set by
configuration to the native backend, while the static `Vector.SYSTEM` is
still the default arbitrary-precision system, gets back from `addX` a
vector whose operator system is the arbitrary-precision system — not the
receiver's. -/
theorem c1_counterexample :
    (((Vector.new BigOperatorSystem (some (.num (.fin 1)))
          (some (.num (.fin 2)))).config BigOperatorSystem
        (some (.inst BaseOperatorSystem))).addX BigOperatorSystem
        (.op (.num (.fin 3)))).map (fun w => w.operatorSystem.name) =
      .ok "BigOperatorSystem"
    ∧ ((Vector.new BigOperatorSystem (some (.num (.fin 1)))
          (some (.num (.fin 2)))).config BigOperatorSystem
        (some (.inst BaseOperatorSystem))).operatorSystem.name = "BaseOperatorSystem"
    ∧ ("BigOperatorSystem" : String) ≠ "BaseOperatorSystem" :=
  ⟨rfl, rfl, by decide⟩

/-- **C1, amended.** Every manipulation method that returns a new vector
(`addX`, `addY`, `add`, `subtractX`, `subtractY`, `subtract`, `divideX`,
`divideY`, `divide`, `multiplyX`, `multiplyY`, `multiply`, `invertX`,
`invertY`, `invert`, `normalize`, `rotate`, `rotateDegree`,
`projectOnto`) returns a vector whose operator system is the process-wide
static `Vector.SYSTEM` in effect at the call — hence it equals the
receiver's operator system exactly when the receiver's system is that
static default. -/
theorem c1_results_carry_static_system :
    ∀ (SYSTEM : OperatorSystem) (v v2 : Vector) (arg : VOperand)
      (mcos msin : JSNum → JSNum) (angle degree : JSNum),
      KeepsSystem SYSTEM (v.addX SYSTEM arg)
      ∧ KeepsSystem SYSTEM (v.addY SYSTEM arg)
      ∧ KeepsSystem SYSTEM (v.add SYSTEM arg)
      ∧ KeepsSystem SYSTEM (v.subtractX SYSTEM arg)
      ∧ KeepsSystem SYSTEM (v.subtractY SYSTEM arg)
      ∧ KeepsSystem SYSTEM (v.subtract SYSTEM arg)
      ∧ KeepsSystem SYSTEM (v.divideX SYSTEM arg)
      ∧ KeepsSystem SYSTEM (v.divideY SYSTEM arg)
      ∧ KeepsSystem SYSTEM (v.divide SYSTEM arg)
      ∧ KeepsSystem SYSTEM (v.multiplyX SYSTEM arg)
      ∧ KeepsSystem SYSTEM (v.multiplyY SYSTEM arg)
      ∧ KeepsSystem SYSTEM (v.multiply SYSTEM arg)
      ∧ KeepsSystem SYSTEM (v.invertX SYSTEM)
      ∧ KeepsSystem SYSTEM (v.invertY SYSTEM)
      ∧ KeepsSystem SYSTEM (v.invert SYSTEM)
      ∧ KeepsSystem SYSTEM (v.normalize SYSTEM)
      ∧ KeepsSystem SYSTEM (v.rotate SYSTEM mcos msin angle)
      ∧ KeepsSystem SYSTEM (v.rotateDegree SYSTEM mcos msin degree)
      ∧ KeepsSystem SYSTEM (v.projectOnto SYSTEM v2) :=
  fun SYSTEM v v2 arg mcos msin angle degree =>
    ⟨addX_keeps SYSTEM v arg, addY_keeps SYSTEM v arg, add_keeps SYSTEM v arg,
     subtractX_keeps SYSTEM v arg, subtractY_keeps SYSTEM v arg,
     subtract_keeps SYSTEM v arg, divideX_keeps SYSTEM v arg,
     divideY_keeps SYSTEM v arg, divide_keeps SYSTEM v arg,
     multiplyX_keeps SYSTEM v arg, multiplyY_keeps SYSTEM v arg,
     multiply_keeps SYSTEM v arg, multiplyX_keeps SYSTEM v _,
     multiplyY_keeps SYSTEM v _, multiply_keeps SYSTEM v _,
     normalize_keeps SYSTEM v, rotate_keeps SYSTEM mcos msin angle v,
     rotateDegree_keeps SYSTEM mcos msin degree v, projectOnto_keeps SYSTEM v v2⟩

/-- **C3, counterexample.** The registry does not recognize the
identifiers `"native"` and `"precise"`: configuring with `"native"` while
the static default is the arbitrary-precision system leaves the vector on
the arbitrary-precision system, not the native floating-point system. -/
theorem c3_counterexample :
    registryLookup "native" = none
    ∧ registryLookup "precise" = none
    ∧ ((Vector.new BigOperatorSystem none none).config BigOperatorSystem
        (some (.name "native"))).operatorSystem.name = "BigOperatorSystem"
    ∧ ("BigOperatorSystem" : String) ≠ BaseOperatorSystem.name :=
  ⟨rfl, rfl, rfl, by decide⟩

/-- **C3, amended.** The registry maps the identifier `"base"` to the
native floating-point system and `"big"` to the arbitrary-precision
system; for every unrecognized name, configuration does not fail and the
vector's operator system becomes the process-wide static `Vector.SYSTEM`
(whose initial value is the arbitrary-precision system). -/
theorem c3_registry_keys_and_fallback :
    registryLookup "base" = some BaseOperatorSystem
    ∧ registryLookup "big" = some BigOperatorSystem
    ∧ defaultSYSTEM = BigOperatorSystem
    ∧ (∀ (SYSTEM : OperatorSystem) (v : Vector) (s : String),
        registryLookup s = none →
        (v.config SYSTEM (some (.name s))).operatorSystem = SYSTEM)
    ∧ (∀ (SYSTEM : OperatorSystem) (v : Vector),
        (v.config SYSTEM (some (.name "base"))).operatorSystem = BaseOperatorSystem
        ∧ (v.config SYSTEM (some (.name "big"))).operatorSystem = BigOperatorSystem) := by
  refine ⟨rfl, rfl, rfl, ?_, fun SYSTEM v => ⟨rfl, rfl⟩⟩
  intro SYSTEM v s h
  simp [Vector.config, h]

/-- Witness for the amended C3 at the concrete unrecognized name
`"unknown"`. -/
theorem c3_registry_keys_and_fallback_witness :
    registryLookup "unknown" = none
    ∧ ((Vector.new BigOperatorSystem none none).config BigOperatorSystem
        (some (.name "unknown"))).operatorSystem = BigOperatorSystem :=
  ⟨rfl, c3_registry_keys_and_fallback.2.2.2.1 BigOperatorSystem
    (Vector.new BigOperatorSystem none none) "unknown" rfl⟩

/-- **C5.** Under the spec's operator-system contract (`sqrt` returns the
exact nonnegative root of its input), a vector of nonzero length
normalized by its own length has length exactly `1`: if `s` is the length
of `v` (`s * s = v.lengthSq`, `s ≠ 0`) and `t` is the nonnegative length
of `v.divide(s)`, then `t = 1`. -/
theorem c5_normalize_unit_length :
    ∀ (v : QVec) (s t : ℚ), s * s = v.lengthSq → s ≠ 0 →
      0 ≤ t → t * t = (v.divideScalar s).lengthSq → t = 1 := by
  intro v s t hs hsne ht0 ht
  have hss : s * s ≠ 0 := mul_ne_zero hsne hsne
  have hls : (v.divideScalar s).lengthSq = 1 := by
    have : (v.divideScalar s).lengthSq = v.lengthSq / (s * s) := by
      unfold QVec.divideScalar QVec.lengthSq
      field_simp
    rw [this, ← hs, div_self hss]
  rcases mul_self_eq_one_iff.mp (ht.trans hls) with h1 | h1
  · exact h1
  · exfalso
    rw [h1] at ht0
    norm_num at ht0

/-- Witness for C5 at the vector `(3, 4)` with length `5`. -/
theorem c5_normalize_unit_length_witness :
    (5 : ℚ) * 5 = (QVec.mk 3 4).lengthSq ∧ (5 : ℚ) ≠ 0 ∧ (0 : ℚ) ≤ 1
    ∧ (1 : ℚ) * 1 = ((QVec.mk 3 4).divideScalar 5).lengthSq ∧ (1 : ℚ) = 1 :=
  ⟨by norm_num [QVec.lengthSq], by norm_num, by norm_num,
   by norm_num [QVec.divideScalar, QVec.lengthSq],
   c5_normalize_unit_length (QVec.mk 3 4) 5 1 (by norm_num [QVec.lengthSq])
     (by norm_num) (by norm_num) (by norm_num [QVec.divideScalar, QVec.lengthSq])⟩

/-- **C6.** `cosAngleBetween` as the code sequences it — dividing the
receiver by its own length, then by the argument's length, then dotting
with the argument — equals the spec's phrasing, the dot product of the two
operands each normalized by its own length, for every pair of vectors and
every pair of length values (exact arithmetic per the backend
contract). -/
theorem c6_cosAngleBetween_eq_spec :
    ∀ (v w : QVec) (lv lw : ℚ),
      QVec.cosAngleBetween v w lv lw = cosAngleBetweenSpec v w lv lw := by
  intro v w lv lw
  unfold QVec.cosAngleBetween cosAngleBetweenSpec QVec.divideScalar QVec.dot
  ring

theorem jsMul_comm (a b : JSNum) : jsMul a b = jsMul b a := by
  cases a <;> cases b <;> simp [jsMul, mul_comm]

theorem jsMinus_neg (a b : JSNum) : jsMinus a b = jsNeg (jsMinus b a) := by
  cases a <;> cases b <;> simp [jsMinus, jsNeg]

theorem jsCross_antisym (ax ay bx2 by2 : JSNum) :
    jsMinus (jsMul ax by2) (jsMul ay bx2)
      = jsNeg (jsMinus (jsMul bx2 ay) (jsMul by2 ax)) := by
  rw [jsMul_comm bx2 ay, jsMul_comm by2 ax]
  exact jsMinus_neg _ _

theorem toBig_eq (s : Stored) :
    toBig s = match toBigQ s with
      | some q => .ok q
      | none => .error .invalidNumber := by
  cases s with
  | big q => rfl
  | num n => cases n <;> rfl
  | str t =>
      simp only [toBig, toBigQ]

theorem bigCross_antisym (sx sy tx ty : Stored) :
    bindE (BigOperatorSystem.multiply sx ty) (fun m1 =>
      bindE (BigOperatorSystem.multiply sy tx) (fun m2 =>
        BigOperatorSystem.minus m1 m2))
    = Except.map Stored.negVal
        (bindE (BigOperatorSystem.multiply tx sy) (fun m1 =>
          bindE (BigOperatorSystem.multiply ty sx) (fun m2 =>
            BigOperatorSystem.minus m1 m2))) := by
  cases hx : toBigQ sx <;> cases hy : toBigQ sy <;>
    cases hx2 : toBigQ tx <;> cases hy2 : toBigQ ty <;>
      simp only [BigOperatorSystem, toBig_eq, hx, hy, hx2, hy2, Stored.negVal,
        bindE_ok, bindE_error, mapE_ok, mapE_error]
  all_goals simp [toBigQ, Stored.negVal]
  all_goals ring

/-- **C7.** Under a common backend (either of the two library backends),
the cross product is antisymmetric at the value level: `a.cross(b)` is the
negation of `b.cross(a)` (and on a parse failure both sides fail with the
same error). -/
theorem c7_cross_antisymmetric :
    ∀ v w : Vector, v.operatorSystem = w.operatorSystem →
      (v.operatorSystem = BaseOperatorSystem ∨ v.operatorSystem = BigOperatorSystem) →
      v.crossRaw w = Except.map Stored.negVal (w.crossRaw v) := by
  intro v w hsys hcase
  rcases hcase with h | h
  · have hw : w.operatorSystem = BaseOperatorSystem := hsys.symm.trans h
    unfold Vector.crossRaw
    rw [h, hw]
    simp [BaseOperatorSystem, Stored.negVal]
    exact jsCross_antisym _ _ _ _
  · have hw : w.operatorSystem = BigOperatorSystem := hsys.symm.trans h
    unfold Vector.crossRaw
    rw [h, hw]
    exact bigCross_antisym (.str v.x) (.str v.y) (.str w.x) (.str w.y)

/-- Witness for C7 at `Vector(100, 50)` and `Vector(200, 60)` under the
native backend (the cross products are `-4000` and `4000`). -/
theorem c7_cross_antisymmetric_witness :
    (Vector.new BaseOperatorSystem (some (.num (.fin 100)))
        (some (.num (.fin 50)))).operatorSystem
      = (Vector.new BaseOperatorSystem (some (.num (.fin 200)))
        (some (.num (.fin 60)))).operatorSystem
    ∧ (Vector.new BaseOperatorSystem (some (.num (.fin 100)))
        (some (.num (.fin 50)))).crossRaw
        (Vector.new BaseOperatorSystem (some (.num (.fin 200))) (some (.num (.fin 60))))
      = Except.map Stored.negVal
          ((Vector.new BaseOperatorSystem (some (.num (.fin 200)))
            (some (.num (.fin 60)))).crossRaw
            (Vector.new BaseOperatorSystem (some (.num (.fin 100)))
              (some (.num (.fin 50))))) :=
  ⟨rfl, c7_cross_antisymmetric _ _ rfl (Or.inl rfl)⟩

theorem orZero_idem (s : Stored) :
    orZero (some (orZero (some s))) = orZero (some s) := by
  by_cases h : s.truthy
  · simp [orZero, h]
  · have h2 : s.truthy = false := by simpa using h
    simp only [orZero, h2, Bool.false_eq_true, if_false]
    rfl

/-- **C8, counterexample.** The round-trips do not hold for every vector:
under the native backend, a vector holding the (truthy) string `"NaN"`
survives serialization unchanged, but `NaN === NaN` is false, so both
`fromArray(toArray)` and `fromObject(toObject)` compare unequal to the
original. -/
theorem c8_counterexample :
    (Vector.fromArray BaseOperatorSystem
        (Vector.new BaseOperatorSystem (some (.str "NaN"))
          (some (.num (.fin 1)))).toArray).isEqualTo
      (Vector.new BaseOperatorSystem (some (.str "NaN")) (some (.num (.fin 1))))
      = .ok false
    ∧ (Vector.fromObject BaseOperatorSystem
        (some (Vector.new BaseOperatorSystem (some (.str "NaN"))
          (some (.num (.fin 1)))).toObject.1)
        (some (Vector.new BaseOperatorSystem (some (.str "NaN"))
          (some (.num (.fin 1)))).toObject.2)).isEqualTo
      (Vector.new BaseOperatorSystem (some (.str "NaN")) (some (.num (.fin 1))))
      = .ok false :=
  ⟨rfl, rfl⟩

/-- **C8, amended.** The round-trips `fromArray(v.toArray()).isEqualTo(v)`
and `fromObject(v.toObject()).isEqualTo(v)` hold for every vector whose
rendered coordinates compare equal to themselves under the ambient
system's `equal` — which is every vector with parseable coordinates under
the arbitrary-precision backend, and every vector with no `NaN`-rendered
coordinate under the native backend. -/
theorem c8_roundtrip_of_selfequal :
    ∀ (SYSTEM : OperatorSystem) (v : Vector),
      SYSTEM = BaseOperatorSystem ∨ SYSTEM = BigOperatorSystem →
      SYSTEM.equal (.str v.x) (.str v.x) = .ok true →
      SYSTEM.equal (.str v.y) (.str v.y) = .ok true →
      (Vector.fromArray SYSTEM v.toArray).isEqualTo v = .ok true
      ∧ (Vector.fromObject SYSTEM (some v.toObject.1)
          (some v.toObject.2)).isEqualTo v = .ok true := by
  intro SYSTEM v hS hx hy
  have key : ∀ s : String, SYSTEM.equal (.str s) (.str s) = .ok true →
      SYSTEM.equal (.str (Stored.toString (orZero (some (.str s))))) (.str s) = .ok true := by
    intro s hs
    by_cases h0 : s = ""
    · subst h0
      rcases hS with rfl | rfl
      · rfl
      · rw [show BigOperatorSystem.equal (.str "") (.str "")
            = .error .invalidNumber from rfl] at hs
        simp at hs
    · simpa [orZero, Stored.truthy, h0, Stored.toString] using hs
  have hxx := key v.x hx
  have hyy := key v.y hy
  have goal1 : (Vector.new SYSTEM (some (orZero (some (.str v.x))))
      (some (orZero (some (.str v.y))))).isEqualTo v = .ok true := by
    unfold Vector.isEqualTo
    simp only [Vector.x, Vector.y] at hxx hyy
    simp only [Vector.new, Vector.x, Vector.y, orZero_idem]
    rw [hxx]
    simpa using hyy
  exact ⟨goal1, goal1⟩

/-- Witness for the amended C8 at `Vector(10, 20)` under the default
arbitrary-precision backend. -/
theorem c8_roundtrip_of_selfequal_witness :
    BigOperatorSystem.equal
        (.str (Vector.new BigOperatorSystem (some (.num (.fin 10)))
          (some (.num (.fin 20)))).x)
        (.str (Vector.new BigOperatorSystem (some (.num (.fin 10)))
          (some (.num (.fin 20)))).x) = .ok true
    ∧ BigOperatorSystem.equal
        (.str (Vector.new BigOperatorSystem (some (.num (.fin 10)))
          (some (.num (.fin 20)))).y)
        (.str (Vector.new BigOperatorSystem (some (.num (.fin 10)))
          (some (.num (.fin 20)))).y) = .ok true
    ∧ (Vector.fromArray BigOperatorSystem
        (Vector.new BigOperatorSystem (some (.num (.fin 10)))
          (some (.num (.fin 20)))).toArray).isEqualTo
        (Vector.new BigOperatorSystem (some (.num (.fin 10)))
          (some (.num (.fin 20)))) = .ok true
    ∧ (Vector.fromObject BigOperatorSystem
        (some (Vector.new BigOperatorSystem (some (.num (.fin 10)))
          (some (.num (.fin 20)))).toObject.1)
        (some (Vector.new BigOperatorSystem (some (.num (.fin 10)))
          (some (.num (.fin 20)))).toObject.2)).isEqualTo
        (Vector.new BigOperatorSystem (some (.num (.fin 10)))
          (some (.num (.fin 20)))) = .ok true :=
  ⟨rfl, rfl,
   (c8_roundtrip_of_selfequal BigOperatorSystem
     (Vector.new BigOperatorSystem (some (.num (.fin 10)))
       (some (.num (.fin 20)))) (Or.inr rfl) rfl rfl).1,
   (c8_roundtrip_of_selfequal BigOperatorSystem
     (Vector.new BigOperatorSystem (some (.num (.fin 10)))
       (some (.num (.fin 20)))) (Or.inr rfl) rfl rfl).2⟩

end MathsVector
